import Mathlib

/-!
Verification of the RSE-Galaxy tool scripts.

Each section shallowly embeds one of the repository's Python scripts: pure
computations become Lean functions over `ℚ`/`Int`/`List`, calls into external
libraries (VTK, CadQuery, gmsh) become parameters or free constructors, and
`while` loops become fuel-indexed iteration so that termination and iteration
counts are provable facts rather than assumptions.
-/

namespace RSEGalaxy

/-! ## unstructured_heatflux_to_PINN.py

The VTK grid is abstracted by its two observable operations used by the
script: `vtkCellLocator.FindCell` (returning a cell id, negative when the
point lies in no cell) and `GetCellData().GetArray(0).GetValue(cell_id)`.
A query point is a row of the coordinates file, i.e. a list of rationals.
-/

structure VtkGrid where
  findCell : List ℚ → Int
  cellValue : Int → ℚ

/-- Embedding of `vtkSearchPoints` (unstructured_heatflux_to_PINN.py, lines
78-102): look the point up with the cell locator; if no cell is found
(negative id) return 0, otherwise return the value of cell array 0 at the
found cell id. -/
def vtkSearchPoints (g : VtkGrid) (aim_coor : List ℚ) : ℚ :=
  let cell_id := g.findCell aim_coor
  if cell_id < 0 then 0
  else g.cellValue cell_id

/-- Embedding of the `results` array fill: `results = np.empty(n)` followed by
`for ii, result in enumerate(input_map): results[ii] = result`.  The initial
array is an arbitrary function `init` (np.empty is uninitialized memory). -/
def fillResults (init : Nat → ℚ) (input_map : List ℚ) : Nat → ℚ :=
  (input_map.enum).foldl (fun acc p => Function.update acc p.1 p.2) init

/-- Embedding of the `__main__` block of unstructured_heatflux_to_PINN.py
(lines 127-148): read the coordinate rows, when the file has 4 columns split
off the last column as `area`, map `vtkSearchPoints` over the coordinate rows
with `pool.map` (order preserving), copy into `results`, and column-stack
the output rows.  `rows` are the rows of the input file, `ncols` its column
count, `init` the uninitialized contents of `np.empty`. -/
def heatfluxMain (g : VtkGrid) (init : Nat → ℚ) (rows : List (List ℚ))
    (ncols : Nat) : List (List ℚ) :=
  let coordinates := if ncols = 4 then rows.map (fun r => r.take 3) else rows
  let area : Option (List ℚ) :=
    if ncols = 4 then some (rows.map (fun r => r.getD 3 0)) else none
  let input_map := coordinates.map (vtkSearchPoints g)
  let results := fillResults init input_map
  match area with
  | none =>
      (List.range coordinates.length).map
        (fun i => coordinates.getD i [] ++ [results i])
  | some a =>
      (List.range coordinates.length).map
        (fun i => coordinates.getD i [] ++ [results i] ++ [a.getD i 0])

lemma foldl_update_enumFrom_lt (l : List ℚ) (k : Nat) (init : Nat → ℚ)
    (j : Nat) (hj : j < k) :
    ((l.enumFrom k).foldl (fun acc p => Function.update acc p.1 p.2) init) j
      = init j := by
  induction l generalizing k init with
  | nil => rfl
  | cons x xs ih =>
      simp only [List.enumFrom, List.foldl_cons]
      rw [ih (k + 1) _ (Nat.lt_succ_of_lt hj)]
      exact Function.update_noteq (Nat.ne_of_lt hj) _ _

lemma foldl_update_enumFrom_get (l : List ℚ) (k : Nat) (init : Nat → ℚ)
    (i : Nat) (h : i < l.length) :
    ((l.enumFrom k).foldl (fun acc p => Function.update acc p.1 p.2) init)
        (k + i) = l.get ⟨i, h⟩ := by
  induction l generalizing k init i with
  | nil => exact absurd h (Nat.not_lt_zero i)
  | cons x xs ih =>
      simp only [List.enumFrom, List.foldl_cons]
      cases i with
      | zero =>
          rw [foldl_update_enumFrom_lt xs (k + 1) _ (k + 0) (by omega)]
          simp [Function.update]
      | succ m =>
          have hm : m < xs.length := Nat.lt_of_succ_lt_succ h
          have : k + (m + 1) = (k + 1) + m := by omega
          rw [this, ih (k + 1) _ m hm]
          rfl

lemma fillResults_get (init : Nat → ℚ) (l : List ℚ) (i : Nat)
    (h : i < l.length) : fillResults init l i = l.get ⟨i, h⟩ := by
  have := foldl_update_enumFrom_get l 0 init i h
  simpa [fillResults, List.enum] using this

/-- C8: `vtkSearchPoints` is total on out-of-grid points: whenever the cell
locator's `FindCell` returns a negative cell id, the function returns 0
rather than raising, so every out-of-grid point contributes heat flux 0. -/
theorem vtkSearchPoints_out_of_grid (g : VtkGrid) (p : List ℚ)
    (h : g.findCell p < 0) : vtkSearchPoints g p = 0 := by
  simp [vtkSearchPoints, h]

/-- Witness for C8 at a concrete grid whose locator finds no cell. -/
theorem vtkSearchPoints_out_of_grid_witness :
    (VtkGrid.mk (fun _ => -1) (fun _ => 7)).findCell [0, 0, 0] < 0 ∧
      vtkSearchPoints (VtkGrid.mk (fun _ => -1) (fun _ => 7)) [0, 0, 0] = 0 :=
  ⟨by decide,
    vtkSearchPoints_out_of_grid (VtkGrid.mk (fun _ => -1) (fun _ => 7))
      [0, 0, 0] (by decide)⟩

/-- C1 counterexample: on a 4-column input file, the output row is not just
the input coordinates followed by the heat-flux value; the script appends the
row's fourth (area) value after the flux.  Concretely, for the single input
row `[0,0,0,5]` over a grid in which the point lies in no cell, the script
writes the row `[0,0,0,0,5]`, which differs both from coordinates-then-flux
(`[0,0,0,0]`) and from full-input-row-then-flux (`[0,0,0,5,0]`). -/
theorem heatfluxMain_four_column_cex :
    heatfluxMain (VtkGrid.mk (fun _ => -1) (fun _ => 7)) (fun _ => 99)
        [[0, 0, 0, 5]] 4 = [[0, 0, 0, 0, 5]] ∧
      ([[(0 : ℚ), 0, 0, 0, 5]] ≠ [[(0 : ℚ), 0, 0, 0]] ∧
        [[(0 : ℚ), 0, 0, 0, 5]] ≠ [[(0 : ℚ), 0, 0, 5, 0]]) := by
  refine ⟨?_, by decide, by decide⟩
  decide

/-- C1 (amended): the script writes exactly one output row per input row and
in the same order; when the input file does not have 4 columns the i-th
output row is the i-th input row followed by the heat flux looked up at
exactly that row, and when it has 4 columns the i-th output row is the first
three entries of the i-th input row, the heat flux looked up at those three
entries, then the row's fourth value.  In both cases the i-th output row is a
function of the i-th input row alone. -/
theorem heatfluxMain_rows (g : VtkGrid) (init : Nat → ℚ)
    (rows : List (List ℚ)) (ncols : Nat) (hn : ncols ≠ 4)
    (i : Nat) (h : i < rows.length) :
    (heatfluxMain g init rows ncols).length = rows.length ∧
      (heatfluxMain g init rows 4).length = rows.length ∧
      (heatfluxMain g init rows ncols).getD i []
        = rows.get ⟨i, h⟩ ++ [vtkSearchPoints g (rows.get ⟨i, h⟩)] ∧
      (heatfluxMain g init rows 4).getD i []
        = (rows.get ⟨i, h⟩).take 3
            ++ [vtkSearchPoints g ((rows.get ⟨i, h⟩).take 3)]
            ++ [(rows.get ⟨i, h⟩).getD 3 0] := by
  constructor
  · simp [heatfluxMain, hn]
  constructor
  · simp [heatfluxMain]
  constructor
  · have hmap : i < (rows.map (vtkSearchPoints g)).length := by simpa using h
    simp only [heatfluxMain, if_neg hn]
    rw [List.getD_eq_getElem _ _ (by simpa using h)]
    simp only [List.getElem_map, List.getElem_range]
    rw [fillResults_get init _ i hmap]
    simp [List.getElem?_eq_getElem h, List.get_eq_getElem, List.getElem_map]
  · have h3 : i < (rows.map (fun r => List.take 3 r)).length := by simpa using h
    have ha : i < (rows.map (fun r => r.getD 3 0)).length := by simpa using h
    have hmap :
        i < ((rows.map (fun r => List.take 3 r)).map
          (vtkSearchPoints g)).length := by simpa using h
    have e4 : heatfluxMain g init rows 4
        = (List.range (rows.map (fun r => List.take 3 r)).length).map
            (fun j => (rows.map (fun r => List.take 3 r)).getD j []
              ++ [fillResults init
                    ((rows.map (fun r => List.take 3 r)).map
                      (vtkSearchPoints g)) j]
              ++ [(rows.map (fun r => r.getD 3 0)).getD j 0]) := rfl
    rw [e4, List.getD_eq_getElem _ _ (by simpa using h)]
    simp only [List.getElem_map, List.getElem_range]
    rw [fillResults_get init _ i hmap]
    simp [List.getElem?_eq_getElem h3, List.getElem?_eq_getElem ha,
      List.getElem?_eq_getElem h, List.get_eq_getElem, List.getElem_map]

/-- Witness for the amended C1 at a concrete grid and 2-row, 3-column input. -/
theorem heatfluxMain_rows_witness :
    (3 : Nat) ≠ 4 ∧ (1 : Nat) < ([[1, 2, 3], [4, 5, 6]] : List (List ℚ)).length ∧
      (heatfluxMain (VtkGrid.mk (fun _ => 2) (fun c => c)) (fun _ => 99)
          [[1, 2, 3], [4, 5, 6]] 3).getD 1 []
        = [4, 5, 6] ++ [vtkSearchPoints (VtkGrid.mk (fun _ => 2) (fun c => c))
            [4, 5, 6]] :=
  ⟨by decide, by decide,
    (heatfluxMain_rows (VtkGrid.mk (fun _ => 2) (fun c => c)) (fun _ => 99)
      [[1, 2, 3], [4, 5, 6]] 3 (by decide) 1 (by decide)).2.2.1⟩

/-! ## tile_paramak.py

`tokamak_sizing` with its constructor-computed fields.  The paramak geometry
calls are external; the sizing arithmetic and the `sys.exit` guards are the
repository's own code and are embedded exactly.  `sys.exit(msg)` is embedded
as `Except.error msg`. -/

structure tokamak_sizing where
  tile_thickness : ℚ
  no_gap : Bool
  full_geometry : Bool
  tile_segments : ℚ

namespace tokamak_sizing

def pv_tile_gapsize : ℚ := 2
def n_tile_segments : ℚ := 8
def tile_gap_size : ℚ := 2
def max_tile_major_radius : ℚ := 85
def max_tile_minor_radius : ℚ := 60
def max_tile_triangularity : ℚ := 0.3
def max_tile_elongation : ℚ := 1.8
def solenoid_clearance : ℚ := 5
def max_PV_thickness : ℚ := 5

def max_tile_thickness : ℚ :=
  max_tile_major_radius - max_tile_minor_radius - solenoid_clearance
    - max_PV_thickness

def max_tile_r_upper : ℚ :=
  max_tile_major_radius - max_tile_triangularity * max_tile_minor_radius

def max_tile_b : ℚ := max_tile_minor_radius * max_tile_elongation

def tile_thickness_is_acceptable (s : tokamak_sizing) : Bool :=
  decide (s.tile_thickness ≤ max_tile_thickness)

def exit_msg : String :=
  "[ERROR] Tile thickness must be <= " ++ toString max_tile_thickness

/-- Embedding of `get_pressure_vessel_size` (tile_paramak.py, lines 42-51). -/
def get_pressure_vessel_size (s : tokamak_sizing) :
    Except String (ℚ × ℚ × ℚ × ℚ × ℚ × ℚ) :=
  if ¬ s.tile_thickness_is_acceptable then Except.error exit_msg
  else
    let PV_major_radius := max_tile_major_radius
    let PV_minor_radius := max_tile_minor_radius + max_tile_thickness
    let PV_triangularity := (PV_major_radius - max_tile_r_upper) / PV_minor_radius
    let PV_b := max_tile_thickness + max_tile_b
    let PV_elongation := PV_b / PV_minor_radius
    let PV_thickness := max_PV_thickness
    Except.ok (PV_major_radius, PV_minor_radius, PV_triangularity, PV_b,
      PV_elongation, PV_thickness)

/-- Embedding of `get_tile_size` (tile_paramak.py, lines 53-65). -/
def get_tile_size (s : tokamak_sizing) : Except String (ℚ × ℚ × ℚ × ℚ × ℚ) :=
  if ¬ s.tile_thickness_is_acceptable then Except.error exit_msg
  else
    match s.get_pressure_vessel_size with
    | Except.error e => Except.error e
    | Except.ok (_, PV_minor_radius, _, PV_b, _, _) =>
      let tile_major_radius := max_tile_major_radius
      let tile_minor_radius :=
        if s.no_gap then PV_minor_radius - s.tile_thickness
        else PV_minor_radius - s.tile_thickness - pv_tile_gapsize
      let tile_triangularity :=
        (tile_major_radius - max_tile_r_upper) / tile_minor_radius
      let tile_b := PV_b - s.tile_thickness
      let tile_elongation := tile_b / tile_minor_radius - 0.05
      Except.ok (tile_major_radius, tile_minor_radius, tile_triangularity,
        tile_b, tile_elongation)

end tokamak_sizing

/-- C3: under the baseline constants `max_tile_thickness` is 15; whenever the
configured tile thickness exceeds it, both `get_pressure_vessel_size` and
`get_tile_size` exit the process with the error message, and whenever it is
at most 15 both return their computed geometric sizes (the pressure-vessel
size is a constant tuple and the tile size is the stated function of the
thickness and the `no_gap` flag) without exiting. -/
theorem tile_paramak_thickness_guard (t segs : ℚ) (ng fg : Bool) :
    tokamak_sizing.max_tile_thickness = 15 ∧
      (tokamak_sizing.max_tile_thickness < t →
        (tokamak_sizing.mk t ng fg segs).get_pressure_vessel_size
            = Except.error tokamak_sizing.exit_msg ∧
          (tokamak_sizing.mk t ng fg segs).get_tile_size
            = Except.error tokamak_sizing.exit_msg) ∧
      (t ≤ tokamak_sizing.max_tile_thickness →
        (tokamak_sizing.mk t ng fg segs).get_pressure_vessel_size
            = Except.ok (85, 75, 18 / 75, 123, 123 / 75, 5) ∧
          (tokamak_sizing.mk t ng fg segs).get_tile_size
            = Except.ok (85, if ng then 75 - t else 73 - t,
                18 / (if ng then 75 - t else 73 - t), 123 - t,
                (123 - t) / (if ng then 75 - t else 73 - t) - 0.05)) := by
  refine ⟨by norm_num [tokamak_sizing.max_tile_thickness,
    tokamak_sizing.max_tile_major_radius, tokamak_sizing.max_tile_minor_radius,
    tokamak_sizing.solenoid_clearance, tokamak_sizing.max_PV_thickness], ?_, ?_⟩
  · intro hgt
    have hb : (tokamak_sizing.mk t ng fg segs).tile_thickness_is_acceptable
        = false := by
      simp [tokamak_sizing.tile_thickness_is_acceptable, not_le.mpr hgt]
    constructor
    · simp [tokamak_sizing.get_pressure_vessel_size, hb]
    · simp [tokamak_sizing.get_tile_size, hb]
  · intro hle
    have hb : (tokamak_sizing.mk t ng fg segs).tile_thickness_is_acceptable
        = true := by
      simp [tokamak_sizing.tile_thickness_is_acceptable, hle]
    have hpv : (tokamak_sizing.mk t ng fg segs).get_pressure_vessel_size
        = Except.ok (85, 75, 18 / 75, 123, 123 / 75, 5) := by
      simp only [tokamak_sizing.get_pressure_vessel_size, hb]
      norm_num [tokamak_sizing.max_tile_major_radius,
        tokamak_sizing.max_tile_minor_radius, tokamak_sizing.max_tile_thickness,
        tokamak_sizing.max_tile_r_upper, tokamak_sizing.max_tile_b,
        tokamak_sizing.max_tile_triangularity, tokamak_sizing.max_tile_elongation,
        tokamak_sizing.solenoid_clearance, tokamak_sizing.max_PV_thickness]
    refine ⟨hpv, ?_⟩
    simp only [tokamak_sizing.get_tile_size, hb, hpv]
    cases ng with
    | false =>
        norm_num [tokamak_sizing.max_tile_major_radius,
          tokamak_sizing.max_tile_r_upper, tokamak_sizing.pv_tile_gapsize,
          tokamak_sizing.max_tile_triangularity,
          tokamak_sizing.max_tile_minor_radius]
        ring_nf
        norm_num
    | true =>
        norm_num [tokamak_sizing.max_tile_major_radius,
          tokamak_sizing.max_tile_r_upper, tokamak_sizing.pv_tile_gapsize,
          tokamak_sizing.max_tile_triangularity,
          tokamak_sizing.max_tile_minor_radius]

/-- Witness for C3 at the over-thick configuration 16 and at the acceptable
configuration 10 (with `no_gap = false`, as the script's `__main__` uses). -/
theorem tile_paramak_thickness_guard_witness :
    ((tokamak_sizing.max_tile_thickness < 16 ∧
        (tokamak_sizing.mk 16 false false 0).get_tile_size
          = Except.error tokamak_sizing.exit_msg) ∧
      ((10 : ℚ) ≤ tokamak_sizing.max_tile_thickness ∧
        (tokamak_sizing.mk 10 false false 0).get_pressure_vessel_size
          = Except.ok (85, 75, 18 / 75, 123, 123 / 75, 5))) :=
  ⟨⟨by norm_num [tokamak_sizing.max_tile_thickness,
      tokamak_sizing.max_tile_major_radius, tokamak_sizing.max_tile_minor_radius,
      tokamak_sizing.solenoid_clearance, tokamak_sizing.max_PV_thickness],
    ((tile_paramak_thickness_guard 16 0 false false).2.1
      (by norm_num [tokamak_sizing.max_tile_thickness,
        tokamak_sizing.max_tile_major_radius,
        tokamak_sizing.max_tile_minor_radius,
        tokamak_sizing.solenoid_clearance,
        tokamak_sizing.max_PV_thickness])).2⟩,
   ⟨by norm_num [tokamak_sizing.max_tile_thickness,
      tokamak_sizing.max_tile_major_radius, tokamak_sizing.max_tile_minor_radius,
      tokamak_sizing.solenoid_clearance, tokamak_sizing.max_PV_thickness],
    ((tile_paramak_thickness_guard 10 0 false false).2.2
      (by norm_num [tokamak_sizing.max_tile_thickness,
        tokamak_sizing.max_tile_major_radius,
        tokamak_sizing.max_tile_minor_radius,
        tokamak_sizing.solenoid_clearance,
        tokamak_sizing.max_PV_thickness])).1⟩⟩

/-! ## sphere_gen.py

The input validation at the head of `generate_sphere` (sphere_gen.py, lines
130-132).  The CadQuery reactor construction that follows the check is
external-library work and is represented by `Except.ok ()`; a raised
`ValueError` is `Except.error` with the raised message. -/

def generate_sphere (radial_build : List ℚ) (component_names : List String) :
    Except String Unit :=
  if radial_build.length ≠ component_names.length then
    Except.error "radial_build and component_names must be the same length"
  else Except.ok ()

/-- C2 counterexample: two scripts do enforce invariants that relate input
values beyond the per-script JSON schema.  `generate_sphere` rejects the
well-typed input `radial_build = [1]`, `component_names = []` because the two
lists differ in length, and `tile_paramak` exits on the well-typed
configuration `tile_thickness = 16` because it exceeds the computed bound
`max_tile_thickness`. -/
theorem schema_only_invariants_cex :
    generate_sphere [1] []
        = Except.error "radial_build and component_names must be the same length"
      ∧ (tokamak_sizing.mk 16 false false 0).get_tile_size
        = Except.error tokamak_sizing.exit_msg := by
  refine ⟨rfl, ?_⟩
  have hb : (tokamak_sizing.mk 16 false false 0).tile_thickness_is_acceptable
      = false := by
    simp only [tokamak_sizing.tile_thickness_is_acceptable,
      decide_eq_false_iff_not, not_le]
    norm_num [tokamak_sizing.max_tile_thickness,
      tokamak_sizing.max_tile_major_radius, tokamak_sizing.max_tile_minor_radius,
      tokamak_sizing.solenoid_clearance, tokamak_sizing.max_PV_thickness]
  simp [tokamak_sizing.get_tile_size, hb]

/-- C2 (amended): most scripts enforce nothing beyond their expected JSON
keys and value types, but at least two enforce further relations between
values: `generate_sphere` raises ValueError exactly when `radial_build` and
`component_names` differ in length, and `tile_paramak`'s `get_tile_size`
exits exactly when the configured tile thickness exceeds
`max_tile_thickness`. -/
theorem input_invariants_beyond_schema (rb : List ℚ) (cn : List String)
    (t segs : ℚ) (ng fg : Bool) :
    (generate_sphere rb cn
        = Except.error "radial_build and component_names must be the same length"
      ↔ rb.length ≠ cn.length) ∧
      ((tokamak_sizing.mk t ng fg segs).get_tile_size
          = Except.error tokamak_sizing.exit_msg
        ↔ tokamak_sizing.max_tile_thickness < t) := by
  constructor
  · constructor
    · intro he
      by_contra hlen
      simp [generate_sphere, hlen] at he
    · intro hlen
      simp [generate_sphere, hlen]
  · constructor
    · intro he
      by_contra hgt
      push_neg at hgt
      have hb : (tokamak_sizing.mk t ng fg segs).tile_thickness_is_acceptable
          = true := by
        simp [tokamak_sizing.tile_thickness_is_acceptable, hgt]
      simp [tokamak_sizing.get_tile_size, hb,
        tokamak_sizing.get_pressure_vessel_size] at he
    · intro hgt
      have hb : (tokamak_sizing.mk t ng fg segs).tile_thickness_is_acceptable
          = false := by
        simp [tokamak_sizing.tile_thickness_is_acceptable, not_le.mpr hgt]
      simp [tokamak_sizing.get_tile_size, hb]

/-! ## json_string_to_file.py

The module body (lines 21-42), parameterised by a JSON parser
`parse : String → Option J` standing for Python's `json.loads` (`some` the
parsed value, `none` when the library raises).  The input file is read line
by line (each line keeping its terminator, as Python's file iteration
yields them) and joined with single spaces; the final `json.dump(data, f)`
re-serialises exactly the value carried by `Except.ok`. -/

def jsonAttemptReplace (json_string : String) : String :=
  ((json_string.replace "\x27" "\x22").replace "True" "true").replace
    "False" "false"

def json_string_to_file {J : Type} (parse : String → Option J)
    (string_array : List String) : Except String J :=
  let json_string := String.intercalate " " string_array
  match parse json_string with
  | some v => Except.ok v
  | none =>
    match parse (jsonAttemptReplace json_string) with
    | some v => Except.ok v
    | none =>
      let data := jsonAttemptReplace json_string
      let data := (data.drop 1).dropRight 1
      match parse data with
      | some v => Except.ok v
      | none => Except.error "The json string is not valid"

/-- C4: the script raises `ValueError("The json string is not valid")` if
and only if all three parse attempts fail - the raw joined input, the input
with single quotes replaced by double quotes and `True`/`False` by
`true`/`false`, and that replaced string with its first and last characters
removed; and whenever the input already parses as JSON, the value written to
the output file is exactly the value parsed from the raw input. -/
theorem json_string_to_file_spec {J : Type} (parse : String → Option J)
    (string_array : List String) :
    (json_string_to_file parse string_array
        = Except.error "The json string is not valid"
      ↔ (parse (String.intercalate " " string_array) = none ∧
          parse (jsonAttemptReplace (String.intercalate " " string_array))
            = none ∧
          parse (((jsonAttemptReplace
              (String.intercalate " " string_array)).drop 1).dropRight 1)
            = none)) ∧
      (∀ v, parse (String.intercalate " " string_array) = some v →
        json_string_to_file parse string_array = Except.ok v) := by
  constructor
  · cases h1 : parse (String.intercalate " " string_array) with
    | some v => simp [json_string_to_file, h1]
    | none =>
      cases h2 : parse (jsonAttemptReplace (String.intercalate " "
          string_array)) with
      | some v => simp [json_string_to_file, h1, h2]
      | none =>
        cases h3 : parse (((jsonAttemptReplace (String.intercalate " "
            string_array)).drop 1).dropRight 1) with
        | some v => simp [json_string_to_file, h1, h2, h3]
        | none => simp [json_string_to_file, h1, h2, h3]
  · intro v hv
    simp [json_string_to_file, hv]

/-- Witness for C4 with a one-line input that a concrete parser accepts. -/
theorem json_string_to_file_spec_witness :
    (fun s => if s = "42" then some 42 else none)
        (String.intercalate " " ["42"]) = some 42 ∧
      json_string_to_file (fun s => if s = "42" then some 42 else none) ["42"]
        = Except.ok 42 :=
  ⟨by decide,
    (json_string_to_file_spec (fun s => if s = "42" then some 42 else none)
      ["42"]).2 42 (by decide)⟩

/-! ## json_append.py

A parsed JSON object (a Python dict) is an association list of string keys
in insertion order; `json.loads` never produces duplicate keys.  The merge
`data = \x7b**json_1, **json_2\x7d` keeps the first dict's keys in place
(overwritten with the second dict's value when the key recurs) and appends
the second dict's new keys in order. -/

def dictMerge {V : Type} (json_1 json_2 : List (String × V)) :
    List (String × V) :=
  json_1.map (fun p =>
      (p.1, match json_2.lookup p.1 with
            | some v => v
            | none => p.2))
    ++ json_2.filter (fun p => (json_1.lookup p.1).isNone)

lemma lookup_map_override {V : Type} (d1 d2 : List (String × V)) (k : String) :
    (d1.map (fun p =>
        (p.1, match d2.lookup p.1 with
              | some v => v
              | none => p.2))).lookup k
      = (d1.lookup k).map (fun v1 => (d2.lookup k).getD v1) := by
  induction d1 with
  | nil => rfl
  | cons a l ih =>
      simp only [List.map_cons, List.lookup]
      cases hbeq : (k == a.1) with
      | false => exact ih
      | true =>
          have hk : k = a.1 := eq_of_beq hbeq
          subst hk
          cases List.lookup a.1 d2 <;> rfl

lemma lookup_append_dicts {V : Type} (l1 l2 : List (String × V)) (k : String) :
    (l1 ++ l2).lookup k
      = match l1.lookup k with
        | some v => some v
        | none => l2.lookup k := by
  induction l1 with
  | nil => rfl
  | cons a l ih =>
      simp only [List.cons_append, List.lookup]
      cases hbeq : (k == a.1) with
      | false => exact ih
      | true => rfl

lemma lookup_filter_key {V : Type} (l : List (String × V))
    (q : String → Bool) (k : String) (hq : q k = true) :
    (l.filter (fun p => q p.1)).lookup k = l.lookup k := by
  induction l with
  | nil => rfl
  | cons a l ih =>
      cases hqa : q a.1 with
      | true =>
          simp only [List.filter_cons, hqa, if_true, List.lookup]
          cases hbeq : (k == a.1) with
          | false => exact ih
          | true => rfl
      | false =>
          have hkne : (k == a.1) = false := by
            cases hbeq2 : (k == a.1) with
            | false => rfl
            | true =>
                have hka : k = a.1 := eq_of_beq hbeq2
                rw [← hka, hq] at hqa
                exact Bool.noConfusion hqa
          simp only [List.filter_cons, hqa, Bool.false_eq_true, if_false]
          rw [ih]
          simp [List.lookup, hkne]

lemma dictMerge_lookup {V : Type} (d1 d2 : List (String × V)) (k : String) :
    (dictMerge d1 d2).lookup k
      = match d1.lookup k, d2.lookup k with
        | some _, some v2 => some v2
        | some v1, none => some v1
        | none, o => o := by
  rw [dictMerge, lookup_append_dicts, lookup_map_override]
  cases h1 : List.lookup k d1 with
  | some v1 =>
      cases h2 : List.lookup k d2 with
      | some v2 => simp [h2]
      | none => simp [h2]
  | none =>
      have hfilt := lookup_filter_key d2
        (fun k0 => (List.lookup k0 d1).isNone) k (by simp [h1])
      cases h2 : List.lookup k d2 with
      | some v2 => simp [hfilt, h2]
      | none => simp [hfilt, h2]

/-- C10: the script writes the right-biased union of its two input objects:
a key is present in the output exactly when it is present in one of the
inputs, a key present in both maps to the second file's value, a key present
in only one keeps its value, and merging with an empty second object returns
the first object unchanged. -/
theorem json_append_merge {V : Type} (d1 d2 : List (String × V)) (k : String) :
    (((dictMerge d1 d2).lookup k).isSome
        ↔ (d1.lookup k).isSome ∨ (d2.lookup k).isSome) ∧
      (∀ v1 v2, d1.lookup k = some v1 → d2.lookup k = some v2 →
        (dictMerge d1 d2).lookup k = some v2) ∧
      (∀ v1, d1.lookup k = some v1 → d2.lookup k = none →
        (dictMerge d1 d2).lookup k = some v1) ∧
      (∀ v2, d1.lookup k = none → d2.lookup k = some v2 →
        (dictMerge d1 d2).lookup k = some v2) ∧
      dictMerge d1 [] = d1 := by
  refine ⟨?_, ?_, ?_, ?_, ?_⟩
  · rw [dictMerge_lookup]
    cases h1 : d1.lookup k <;> cases h2 : d2.lookup k <;> simp
  · intro v1 v2 h1 h2
    rw [dictMerge_lookup, h1, h2]
  · intro v1 h1 h2
    rw [dictMerge_lookup, h1, h2]
  · intro v2 h1 h2
    rw [dictMerge_lookup, h1, h2]
  · simp [dictMerge, List.lookup]

/-- Witness for C10 on two concrete objects sharing the key `a`. -/
theorem json_append_merge_witness :
    ([(("a" : String), (1 : Int)), ("b", 2)].lookup "a" = some 1 ∧
        [(("a" : String), (3 : Int)), ("c", 4)].lookup "a" = some 3) ∧
      (dictMerge [(("a" : String), (1 : Int)), ("b", 2)]
          [("a", 3), ("c", 4)]).lookup "a" = some 3 :=
  ⟨⟨by decide, by decide⟩,
    (json_append_merge [(("a" : String), (1 : Int)), ("b", 2)]
        [("a", 3), ("c", 4)] "a").2.1 1 3 (by decide) (by decide)⟩

/-! ## minio_pull/pull.py and minio_push/push.py

The `Minio(...)` constructor call in each script, as a function of every
command-line argument the script accepts.  Both scripts hardcode the
endpoint, access key, secret key and the `secure` flag. -/

structure MinioClientConfig where
  endpoint : String
  access_key : String
  secret_key : String
  secure : Bool
  deriving DecidableEq

/-- Embedding of the `Minio(...)` call of minio_pull/pull.py (lines 21-26),
as a function of the script's three command-line arguments. -/
def pullClient (filename bucket file_save : String) : MinioClientConfig :=
  { endpoint := "minio-console.mcfe.itservices.manchester.ac.uk"
    access_key := "oJoz9gvQ4d1GJPmrl9YN"
    secret_key := "cZ7psKhLQ5P3V5OkUXGV5nNItojEZgZLaUHyXoMH"
    secure := true }

/-- Embedding of the `Minio(...)` call of minio_push/push.py (lines 18-23),
as a function of the script's two command-line arguments. -/
def pushClient (file bucket : String) : MinioClientConfig :=
  { endpoint := "minio-console.mcfe.itservices.manchester.ac.uk"
    access_key := "oJoz9gvQ4d1GJPmrl9YN"
    secret_key := "cZ7psKhLQ5P3V5OkUXGV5nNItojEZgZLaUHyXoMH"
    secure := true }

/-- C6: for every pair of runs of pull.py or push.py, whatever command-line
arguments are supplied, the Minio client is built with the same constant
endpoint, access key and secret key - the credentials never depend on any
input, across runs and across the two scripts. -/
theorem minio_credentials_constant (f1 b1 s1 f2 b2 s2 g1 c1 g2 c2 : String) :
    pullClient f1 b1 s1 = pullClient f2 b2 s2 ∧
      pushClient g1 c1 = pushClient g2 c2 ∧
      pullClient f1 b1 s1 = pushClient g1 c1 := by
  exact ⟨rfl, rfl, rfl⟩

/-! ## While-loop machinery

A Python `while` loop as fuel-indexed iteration: `whileFuel cond body f s`
returns `some` final state when the loop exits within `f` iterations and
`none` when `f` iterations do not reach a false condition.  All the loops in
question are counting loops: the state is a counter paired with data, the
condition is `counter <= limit`, and the body increments the counter. -/

def whileFuel {σ : Type} (cond : σ → Bool) (body : σ → σ) :
    Nat → σ → Option σ
  | 0, s => if cond s then none else some s
  | Nat.succ f, s => if cond s then whileFuel cond body f (body s) else some s

/-- `applyRange step start n a` applies `step` at `start`, `start+1`, ...,
`start+n-1` in order. -/
def applyRange {α : Type} (step : Nat → α → α) : Nat → Nat → α → α
  | _, 0, a => a
  | start, Nat.succ n, a => applyRange step (start + 1) n (step start a)

lemma whileFuel_count {α : Type} (limit : Nat) (step : Nat → α → α)
    (n : Nat) : ∀ (start : Nat) (a : α), start + n = limit + 1 →
    whileFuel (fun s => decide (s.1 ≤ limit))
        (fun s => (s.1 + 1, step s.1 s.2)) n (start, a)
      = some (limit + 1, applyRange step start n a) := by
  induction n with
  | zero =>
      intro start a h
      have hgt : ¬ start ≤ limit := by omega
      have hs : start = limit + 1 := by omega
      simp [whileFuel, hgt, applyRange, hs]
  | succ m ih =>
      intro start a h
      have hle : start ≤ limit := by omega
      have hcond : decide (start ≤ limit) = true := decide_eq_true hle
      simp only [whileFuel, hcond, if_true, applyRange]
      exact ih (start + 1) (step start a) (by omega)

lemma whileFuel_count_short {α : Type} (limit : Nat) (step : Nat → α → α)
    (n : Nat) : ∀ (start : Nat) (a : α), start + n ≤ limit →
    whileFuel (fun s => decide (s.1 ≤ limit))
        (fun s => (s.1 + 1, step s.1 s.2)) n (start, a) = none := by
  induction n with
  | zero =>
      intro start a h
      have hle : start ≤ limit := by omega
      simp [whileFuel, hle]
  | succ m ih =>
      intro start a h
      have hle : start ≤ limit := by omega
      have hcond : decide (start ≤ limit) = true := decide_eq_true hle
      simp only [whileFuel, hcond, if_true]
      exact ih (start + 1) (step start a) (by omega)

lemma applyRange_append {β : Type} (g : Nat → β) (n : Nat) :
    ∀ (start : Nat) (a : List β),
    applyRange (fun i l => l ++ [g i]) start n a
      = a ++ (List.range n).map (fun k => g (start + k)) := by
  induction n with
  | zero => intro start a; simp [applyRange]
  | succ m ih =>
      intro start a
      rw [applyRange, ih (start + 1) (a ++ [g start]),
        List.range_succ_eq_map]
      simp only [List.map_cons, List.map_map, List.append_assoc,
        List.singleton_append, Nat.add_zero]
      refine congrArg (a ++ ·) (congrArg (g start :: ·) ?_)
      refine List.map_congr_left ?_
      intro k _
      simp only [Function.comp_apply]
      congr 1
      omega

/-! ## tokamak_gen/tf_step_v3.py

`tf_step`'s loops.  CadQuery shapes are free terms: the extruded cut
profile `p7` built from the vessel CSV is an arbitrary value of an abstract
profile type, and `rotate`/`translate` are constructors recording their
arguments, exactly the calls made in the rotation loop.  Angles there are in
degrees and rational.  The per-point numeric file contents come from
numpy/trig calls; the writing loops are tracked as an event trace recording
which line of which coil is written. -/

inductive CadShape (P : Type) : Type
  | base (p : P)
  | rotate (center axis : ℚ × ℚ × ℚ) (angle : ℚ) (s : CadShape P)
  | translate (off : ℚ × ℚ × ℚ) (s : CadShape P)

/-- Body of the type-conversion loop (tf_step_v3.py, lines 101-114): below
`tot_point` parse the CSV strings into the arrays, at `tot_point` close the
loop by copying index 0.  `float()` parsing of the CSV strings is external;
the CSV columns are taken as their parsed rational values. -/
def tfConvertBody (xorig_str yorig_str : List ℚ) (tot_point : Nat)
    (count : Nat) (arrs : (Nat → ℚ) × (Nat → ℚ)) : (Nat → ℚ) × (Nat → ℚ) :=
  if (count : Int) ≤ (tot_point : Int) - 1 then
    (Function.update arrs.1 count (xorig_str.getD count 0),
     Function.update arrs.2 count (yorig_str.getD count 0))
  else
    (Function.update arrs.1 count (arrs.1 0),
     Function.update arrs.2 count (arrs.2 0))

/-- The conversion loop `while count <= tot_point`, starting from
`count = 0` and the zero-initialised numpy arrays, with `tot_point` the
number of CSV rows. -/
def tfConvertLoop (xorig_str yorig_str : List ℚ) (fuel : Nat) :
    Option (Nat × ((Nat → ℚ) × (Nat → ℚ))) :=
  whileFuel (fun s => decide (s.1 ≤ xorig_str.length))
    (fun s => (s.1 + 1,
      tfConvertBody xorig_str yorig_str xorig_str.length s.1 s.2))
    fuel (0, (fun _ => 0, fun _ => 0))

/-- One line written to the TF coil file: the `TF Coil {i}` header, the
`x,y,z` column header, or the row for point `point` of coil `coil`. -/
inductive TfLine : Type
  | coilHeader (coil : Nat)
  | columnHeader (coil : Nat)
  | pointRow (coil : Nat) (point : Nat)

/-- The inner point-printing loop `while count <= tot_point`
(tf_step_v3.py, lines 192-194) for coil `coil`, appending one point row per
iteration. -/
def tfPointLoop (tot_point coil : Nat) (fuel : Nat) (lines : List TfLine) :
    Option (Nat × List TfLine) :=
  whileFuel (fun s => decide (s.1 ≤ tot_point))
    (fun s => (s.1 + 1, s.2 ++ [TfLine.pointRow coil s.1])) fuel (0, lines)

/-- The outer coil-writing loop `while coil_count <= coil_num`
(tf_step_v3.py, lines 179-196): per coil, write the two headers and run the
point loop (given fuel `tot_point + 1`, which `tf_step_point_coil_loops`
shows is exactly enough). -/
def tfCoilFileLoop (tot_point : Nat) (fuel : Nat) : Option (Nat × List TfLine) :=
  whileFuel (fun s => decide (s.1 ≤ 12))
    (fun s => (s.1 + 1,
      ((tfPointLoop tot_point s.1 (tot_point + 1)
          (s.2 ++ [TfLine.coilHeader s.1, TfLine.columnHeader s.1])).getD
        (0, [])).2))
    fuel (1, [])

/-- Body of the rotation loop (tf_step_v3.py, lines 222-233): name
`"TF_" + str(i)`, rotate `p7` about the y-axis through the origin by
`(360.0 / tf_num) * i` degrees, translate by `(0,0,0)`, add to the
assembly. -/
def tfAddCoilsBody (P : Type) (p7 : CadShape P) (i : Nat)
    (assy : List (String × CadShape P)) : List (String × CadShape P) :=
  assy ++ [("TF_" ++ toString i,
    CadShape.translate (0, 0, 0)
      (CadShape.rotate (0, 0, 0) (0, 1, 0) (360 / 12 * (i : ℚ)) p7))]

/-- The rotation loop `while i <= tf_num` with `tf_num = 12`, from `i = 1`
and the empty assembly. -/
def tfAddCoils (P : Type) (p7 : CadShape P) (fuel : Nat) :
    Option (Nat × List (String × CadShape P)) :=
  whileFuel (fun s => decide (s.1 ≤ 12))
    (fun s => (s.1 + 1, tfAddCoilsBody P p7 s.1 s.2)) fuel (1, [])

/-- C5: for every vessel profile (hence every vessel CSV and thickness
parameters), the rotation loop adds exactly 12 coils to the assembly, the
k-th (1-based `i = k+1`) named `TF_i` and equal to the same profile `p7`
rotated about the y-axis through the origin by `i * (360 / 12)` degrees,
then translated by zero; in particular the names are `TF_1` ... `TF_12`. -/
theorem tf_step_twelve_coils (P : Type) (p7 : CadShape P) :
    tfAddCoils P p7 12
        = some (13, (List.range 12).map (fun (k : Nat) =>
            ("TF_" ++ toString (k + 1),
              CadShape.translate (0, 0, 0)
                (CadShape.rotate (0, 0, 0) (0, 1, 0)
                  (((k : ℚ) + 1) * (360 / 12)) p7)))) ∧
      ((List.range 12).map (fun (k : Nat) => "TF_" ++ toString (k + 1))
        = ["TF_1", "TF_2", "TF_3", "TF_4", "TF_5", "TF_6", "TF_7", "TF_8",
           "TF_9", "TF_10", "TF_11", "TF_12"]) := by
  constructor
  · rw [tfAddCoils, whileFuel_count 12 (tfAddCoilsBody P p7) 12 1 [] rfl]
    have hb : tfAddCoilsBody P p7 = fun (i : Nat) l => l ++ [("TF_" ++ toString i,
        CadShape.translate (0, 0, 0)
          (CadShape.rotate (0, 0, 0) (0, 1, 0) (360 / 12 * (i : ℚ)) p7))] :=
      rfl
    rw [hb, applyRange_append]
    refine congrArg some (congrArg (Prod.mk 13) ?_)
    simp only [List.nil_append]
    refine List.map_congr_left ?_
    intro k _
    rw [Nat.add_comm 1 k]
    have hang : (360 / 12 : ℚ) * ((k + 1 : Nat) : ℚ)
        = ((k : ℚ) + 1) * (360 / 12) := by push_cast; ring
    rw [hang]
  · decide

/-- C7: every while-loop in `tf_step` is bounded.  For every finite vessel
CSV (`tot_point` rows): the conversion loop starting at `count = 0` exits
with `count = tot_point + 1` given exactly `tot_point + 1` iterations of
fuel and fails to exit with one less; the point-printing loop of each coil
behaves the same for every starting trace; the coil-file loop and the
rotation loop starting at 1 exit with counter 13 given exactly 12 iterations
of fuel and fail to exit with 11; so `tf_step` terminates. -/
theorem tf_step_loops_bounded (xorig_str yorig_str : List ℚ) (P : Type)
    (p7 : CadShape P) (coil : Nat) (lines : List TfLine) :
    ((tfConvertLoop xorig_str yorig_str (xorig_str.length + 1)).isSome
        ∧ (tfConvertLoop xorig_str yorig_str (xorig_str.length + 1)).map
            Prod.fst = some (xorig_str.length + 1)
        ∧ tfConvertLoop xorig_str yorig_str xorig_str.length = none) ∧
      (tfPointLoop xorig_str.length coil (xorig_str.length + 1) lines
          = some (xorig_str.length + 1,
              lines ++ (List.range (xorig_str.length + 1)).map
                (fun k => TfLine.pointRow coil k))
        ∧ tfPointLoop xorig_str.length coil xorig_str.length lines = none) ∧
      ((tfCoilFileLoop xorig_str.length 12).isSome
        ∧ (tfCoilFileLoop xorig_str.length 12).map Prod.fst = some 13
        ∧ tfCoilFileLoop xorig_str.length 11 = none) ∧
      ((tfAddCoils P p7 12).isSome
        ∧ (tfAddCoils P p7 12).map Prod.fst = some 13
        ∧ tfAddCoils P p7 11 = none) := by
  have hconv := whileFuel_count xorig_str.length
    (fun c a => tfConvertBody xorig_str yorig_str xorig_str.length c a)
    (xorig_str.length + 1) 0 ((fun _ => 0 : Nat → ℚ), (fun _ => 0 : Nat → ℚ))
    (by omega)
  have hconvs := whileFuel_count_short xorig_str.length
    (fun c a => tfConvertBody xorig_str yorig_str xorig_str.length c a)
    xorig_str.length 0 ((fun _ => 0 : Nat → ℚ), (fun _ => 0 : Nat → ℚ))
    (by omega)
  have hpt := whileFuel_count xorig_str.length
    (fun c (l : List TfLine) => l ++ [TfLine.pointRow coil c])
    (xorig_str.length + 1) 0 lines (by omega)
  have hpts := whileFuel_count_short xorig_str.length
    (fun c (l : List TfLine) => l ++ [TfLine.pointRow coil c])
    xorig_str.length 0 lines (by omega)
  have hfile := whileFuel_count 12
    (fun c (l : List TfLine) =>
      ((tfPointLoop xorig_str.length c (xorig_str.length + 1)
          (l ++ [TfLine.coilHeader c, TfLine.columnHeader c])).getD
        (0, [])).2)
    12 1 [] (by omega)
  have hfiles := whileFuel_count_short 12
    (fun c (l : List TfLine) =>
      ((tfPointLoop xorig_str.length c (xorig_str.length + 1)
          (l ++ [TfLine.coilHeader c, TfLine.columnHeader c])).getD
        (0, [])).2)
    11 1 [] (by omega)
  have hrot := whileFuel_count 12 (tfAddCoilsBody P p7) 12 1 [] (by omega)
  have hrots := whileFuel_count_short 12 (tfAddCoilsBody P p7) 11 1 []
    (by omega)
  refine ⟨⟨?_, ?_, ?_⟩, ⟨?_, ?_⟩, ⟨?_, ?_, ?_⟩, ⟨?_, ?_, ?_⟩⟩
  · rw [tfConvertLoop, hconv]; rfl
  · rw [tfConvertLoop, hconv]; rfl
  · rw [tfConvertLoop, hconvs]
  · rw [tfPointLoop, hpt, applyRange_append]
    simp
  · rw [tfPointLoop, hpts]
  · rw [tfCoilFileLoop, hfile]; rfl
  · rw [tfCoilFileLoop, hfile]; rfl
  · rw [tfCoilFileLoop, hfiles]
  · rw [tfAddCoils, hrot]; rfl
  · rw [tfAddCoils, hrot]; rfl
  · rw [tfAddCoils, hrots]

/-! ## stellarator_plasma_cad/radial_from_vmec.py

`make_build`'s layer loop is `while layer_count <= 0:` with `layer_count`
starting at 0 and incremented at the bottom.  Each iteration reads
`thickness_list[layer_count]`, fills the layer geometry through gmsh (an
external library, recorded here only as the layer being processed), and
writes `"layer_" + str(layer_count) + ".step"`.  Every iteration is recorded
as the triple (layer index, thickness used, STEP filename written). -/

def makeBuildLayerLoop (thickness_list : List ℚ) (fuel : Nat) :
    Option (Nat × List (Nat × ℚ × String)) :=
  whileFuel (fun s => decide (s.1 ≤ 0))
    (fun s => (s.1 + 1,
      s.2 ++ [(s.1, thickness_list.getD s.1 0,
        "layer_" ++ toString s.1 ++ ".step")]))
    fuel (0, [])

/-- C9: for every thickness list with at least one entry, the layer loop of
`make_build` executes exactly one iteration (one unit of fuel suffices and
zero does not), for `layer_count = 0` only, using only `thickness_list[0]`,
and writes exactly one STEP file, named `layer_0.step` - however many
thickness entries are supplied. -/
theorem make_build_single_layer (thickness_list : List ℚ)
    (h : 0 < thickness_list.length) :
    makeBuildLayerLoop thickness_list 1
        = some (1, [(0, thickness_list.get ⟨0, h⟩, "layer_0.step")]) ∧
      makeBuildLayerLoop thickness_list 0 = none := by
  constructor
  · simp only [makeBuildLayerLoop, whileFuel]
    norm_num
    constructor
    · rw [List.getElem?_eq_getElem h]
      rfl
    · rfl
  · simp [makeBuildLayerLoop, whileFuel]

/-- Witness for C9 at a two-entry thickness list: only the first thickness
is used and only `layer_0.step` is written. -/
theorem make_build_single_layer_witness :
    (0 : Nat) < ([(5 : ℚ), 7] : List ℚ).length ∧
      makeBuildLayerLoop [(5 : ℚ), 7] 1
        = some (1, [(0, (5 : ℚ), "layer_0.step")]) :=
  ⟨by decide,
    (make_build_single_layer [(5 : ℚ), 7] (by decide)).1⟩

end RSEGalaxy
